import Mathlib

/- Shallow embedding of the Bundt Cake escrow CLI
   (token-metadata/cli/escrow): the hand-written helper layer
   `createTOE` and `transferIn` from src/helpers/toe.ts, the generated
   AddCollectionConstraintToEscrowConstraintModel instruction builder,
   and the CLI entry point with its `create` command action.

   Machine-level conventions: a Solana public key is identified by its
   base58 text rendering (base58 decoding is injective, so the string
   identifies the 32-byte key); awaited network round trips are modelled
   by a `Network` oracle supplying the blockhash and the send outcome,
   and each helper returns its result together with the ordered trace of
   network calls it made. -/

/-- A Solana public key, identified by its base58 rendering. -/
structure PublicKey where
  base58 : String
deriving DecidableEq

/-- A signing keypair; this code only ever reads its public half. -/
structure Keypair where
  publicKey : PublicKey
deriving DecidableEq

/-- The System Program id (`web3.SystemProgram.programId`). -/
def SystemProgram.programId : PublicKey :=
  ⟨"11111111111111111111111111111111"⟩

/-- A mint handle as exposed by the metaplex `NftWithToken` model
(only the `address` field is read by this code). -/
structure Mint where
  address : PublicKey
deriving DecidableEq

/-- A token-account handle (the `token` field of an NFT/SFT model). -/
structure Token where
  address : PublicKey
deriving DecidableEq

/-- An edition handle (the `edition` field of an NFT model). -/
structure Edition where
  address : PublicKey
deriving DecidableEq

/-- The fields of `@metaplex-foundation/js` `NftWithToken` that toe.ts
reads: mint, metadata address, edition and the holding token account. -/
structure NftWithToken where
  mint : Mint
  metadataAddress : PublicKey
  edition : Edition
  token : Token
deriving DecidableEq

/-- The fields of `SftWithToken` that toe.ts reads (a semi-fungible
token has no edition). -/
structure SftWithToken where
  mint : Mint
  metadataAddress : PublicKey
  token : Token
deriving DecidableEq

/-- The TypeScript union `NftWithToken | SftWithToken` accepted by
`transferIn` for the deposited token. -/
inductive NftOrSft where
  | nft (n : NftWithToken)
  | sft (s : SftWithToken)
deriving DecidableEq

/-- Field access `x.mint` on the union type. -/
def NftOrSft.mint : NftOrSft → Mint
  | .nft n => n.mint
  | .sft s => s.mint

/-- Field access `x.metadataAddress` on the union type. -/
def NftOrSft.metadataAddress : NftOrSft → PublicKey
  | .nft n => n.metadataAddress
  | .sft s => s.metadataAddress

/-- Field access `x.token` on the union type. -/
def NftOrSft.token : NftOrSft → Token
  | .nft n => n.token
  | .sft s => s.token

/-- Modelled from the spec: `findToePda` (imported by toe.ts from
./helpers/pdas, a file absent from the provided sources) computes the
program-derived address of the escrow account from the NFT mint public
key, returning the `[address, bump]` pair of
`PublicKey.findProgramAddress`. The spec describes it as "a
deterministically derived address (program-derived address) computed
from the NFT mint public key"; it is modelled as an injective pure
function of the mint alone. -/
def findToePda (mint : PublicKey) : PublicKey × Nat :=
  (⟨"toe-pda(" ++ mint.base58 ++ ")"⟩, 255)

/-- Modelled from the spec: `getAssociatedTokenAddress` from
`@solana/spl-token` (an external SDK) derives the associated
token-account address from a mint and an owner; the
`allowOwnerOffCurve` flag only disables an on-curve check and does not
enter the derivation. Modelled as an injective pure function of mint
and owner. -/
def getAssociatedTokenAddress (mint : PublicKey) (owner : PublicKey)
    (allowOwnerOffCurve : Bool) : PublicKey :=
  ⟨"ata(" ++ mint.base58 ++ "," ++ owner.base58 ++ ")"⟩

/-- The accounts record accepted by the generated
`createCreateEscrowAccountInstruction` builder, as populated by
toe.ts: escrow, metadata, mint, edition, payer, an optional system
program (defaulted when omitted) and an optional escrow constraint
model. TypeScript `undefined` is `none`. -/
structure CreateEscrowAccountInstructionAccounts where
  escrow : PublicKey
  metadata : PublicKey
  mint : PublicKey
  edition : PublicKey
  payer : PublicKey
  systemProgram : Option PublicKey
  escrowConstraintModel : Option PublicKey
deriving DecidableEq

/-- The accounts record accepted by the generated
`createTransferIntoEscrowInstruction` builder, as populated by
toe.ts. -/
structure TransferIntoEscrowInstructionAccounts where
  escrow : PublicKey
  payer : PublicKey
  attributeMint : PublicKey
  attributeSrc : PublicKey
  attributeDst : PublicKey
  attributeMetadata : PublicKey
  escrowMint : PublicKey
  escrowAccount : PublicKey
  constraintModel : PublicKey
deriving DecidableEq

/-- The `transferIntoEscrowArgs` argument struct: an amount and an
index (u64 values in the on-chain encoding). -/
structure TransferIntoEscrowArgs where
  amount : Nat
  index : Nat
deriving DecidableEq

/-- The argument record accepted by
`createTransferIntoEscrowInstruction`. -/
structure TransferIntoEscrowInstructionArgs where
  transferIntoEscrowArgs : TransferIntoEscrowArgs
deriving DecidableEq

/-- Modelled from the spec: the instructions built by the generated
builders `createCreateEscrowAccountInstruction` and
`createTransferIntoEscrowInstruction` (generated bindings of
mpl-token-metadata, outside the provided sources). Per the spec the
generated layer "simply serializes account lists and argument structs
into transaction instructions", so an instruction is modelled
symbolically as the accounts record (and argument record) handed to its
builder. -/
inductive Instruction where
  | createEscrowAccount (accounts : CreateEscrowAccountInstructionAccounts)
  | transferIntoEscrow (accounts : TransferIntoEscrowInstructionAccounts)
      (args : TransferIntoEscrowInstructionArgs)
deriving DecidableEq

/-- An account list entry, field order as in the solita output:
pubkey, isWritable, isSigner. -/
structure AccountMeta where
  pubkey : PublicKey
  isWritable : Bool
  isSigner : Bool
deriving DecidableEq

/-- Modelled from the spec: the account list produced by the generated
`createCreateEscrowAccountInstruction` builder (not among the provided
sources). Per the spec the creation instruction carries "exactly the
escrow, metadata, mint, edition, payer, and (implicitly)
system-program accounts in the documented roles"; following the solita
pattern of the in-source sibling builder, the accounts the program
creates or debits (escrow, metadata) are writable, the payer is
writable and the sole signer, the rest are read-only, the system
program defaults when omitted, and an optional trailing constraint
model account is appended only when supplied. -/
def createEscrowAccountInstructionKeys
    (accounts : CreateEscrowAccountInstructionAccounts) : List AccountMeta :=
  [ ⟨accounts.escrow, true, false⟩,
    ⟨accounts.metadata, true, false⟩,
    ⟨accounts.mint, false, false⟩,
    ⟨accounts.edition, false, false⟩,
    ⟨accounts.payer, true, true⟩,
    ⟨accounts.systemProgram.getD SystemProgram.programId, false, false⟩ ]
  ++ (match accounts.escrowConstraintModel with
      | some m => [⟨m, false, false⟩]
      | none => [])

/-- A `web3.Transaction` as used here: an instruction list plus the
blockhash and fee payer set after construction. -/
structure Transaction where
  instructions : List Instruction
  recentBlockhash : Option String
  feePayer : Option PublicKey
deriving DecidableEq

/-- `new Transaction()`. -/
def Transaction.empty : Transaction := ⟨[], none, none⟩

/-- `tx.add(ix)`. -/
def Transaction.add (tx : Transaction) (ix : Instruction) : Transaction :=
  { tx with instructions := tx.instructions ++ [ix] }

/-- The send options toe.ts cares about: `skipPreflight`. -/
structure SendOptions where
  skipPreflight : Bool
deriving DecidableEq

/-- The `web3.js` default send options: preflight checks enabled. -/
def SendOptions.default : SendOptions := ⟨false⟩

/-- One awaited network round trip made by a helper, recorded in
order. -/
inductive NetCall where
  | getLatestBlockhash
  | sendTransaction (tx : Transaction) (signers : List Keypair)
      (options : SendOptions)
deriving DecidableEq

/-- True unless the call is a transaction submission with preflight
checks enabled. -/
def NetCall.skipsPreflight : NetCall → Bool
  | .sendTransaction _ _ options => options.skipPreflight
  | .getLatestBlockhash => true

/-- The network oracle: the outcome of the blockhash fetch, the outcome
of each submission, and whether a submitted transaction ultimately
confirms on chain. A thrown SDK exception is an `Except.error` carrying
the exception value; the helpers never consult `confirms` (submission
is fire-and-forget). -/
structure Network where
  blockhashResult : Except String String
  sendResult : Transaction → List Keypair → SendOptions → Except String String
  confirms : Transaction → Bool

/-- The accounts record toe.ts passes to
`createCreateEscrowAccountInstruction` (toe.ts lines 13-20): the
derived escrow address, the NFT metadata, mint and edition addresses,
the keypair public key as payer, no system program override, and
`escrowConstraintModel: undefined`. -/
def createTOE.accounts (nft : NftWithToken) (keypair : Keypair) :
    CreateEscrowAccountInstructionAccounts :=
  { escrow := (findToePda nft.mint.address).1
    metadata := nft.metadataAddress
    mint := nft.mint.address
    edition := nft.edition.address
    payer := keypair.publicKey
    systemProgram := none
    escrowConstraintModel := none }

/-- The `createIX` built inside `createTOE`. -/
def createTOE.createIX (nft : NftWithToken) (keypair : Keypair) : Instruction :=
  Instruction.createEscrowAccount (createTOE.accounts nft keypair)

/-- `createTOE` (toe.ts lines 10-30): derive the escrow address from
the mint, build the creation instruction, wrap it in a transaction,
fetch a blockhash, set blockhash and fee payer, submit with default
options, and return the derived `[address, bump]` pair. A failed
awaited call propagates its exception; each network call is recorded in
the returned trace. -/
def createTOE (connection : Network) (nft : NftWithToken) (keypair : Keypair) :
    Except String (PublicKey × Nat) × List NetCall :=
  let escrowAccountAddress := findToePda nft.mint.address
  let tx := Transaction.empty.add (createTOE.createIX nft keypair)
  match connection.blockhashResult with
  | .error e => (.error e, [NetCall.getLatestBlockhash])
  | .ok blockhash =>
    let tx := { tx with recentBlockhash := some blockhash,
                        feePayer := some keypair.publicKey }
    match connection.sendResult tx [keypair] SendOptions.default with
    | .error e =>
      (.error e,
        [NetCall.getLatestBlockhash,
         NetCall.sendTransaction tx [keypair] SendOptions.default])
    | .ok _ =>
      (.ok escrowAccountAddress,
        [NetCall.getLatestBlockhash,
         NetCall.sendTransaction tx [keypair] SendOptions.default])

/-- The hard-coded constraint-model account of `transferIn`
(toe.ts line 56). -/
def transferIn.constraintModelKey : PublicKey :=
  ⟨"CjWwgEJUBdb2iYjZsDng5qkYRC8f3rQeqr4k1j9jExr5"⟩

/-- The accounts record toe.ts passes to
`createTransferIntoEscrowInstruction` (toe.ts lines 46-57): the known
escrow address, the keypair public key as payer, the deposited mint,
its holding token account as source, the associated token account of
the deposited mint owned by the escrow as destination, the deposited
metadata, the escrow NFT mint and token account, and the fixed
constraint model. -/
def transferIn.accounts (escrowNft : NftWithToken)
    (escrowAccountAddress : PublicKey) (nft : NftOrSft) (keypair : Keypair) :
    TransferIntoEscrowInstructionAccounts :=
  { escrow := escrowAccountAddress
    payer := keypair.publicKey
    attributeMint := nft.mint.address
    attributeSrc := nft.token.address
    attributeDst := getAssociatedTokenAddress nft.mint.address escrowAccountAddress true
    attributeMetadata := nft.metadataAddress
    escrowMint := escrowNft.mint.address
    escrowAccount := escrowNft.token.address
    constraintModel := transferIn.constraintModelKey }

/-- The `transferIX` built inside `transferIn` (toe.ts lines 46-61):
the accounts above together with the literal argument record
`transferIntoEscrowArgs: { amount: 1, index: 1 }`. -/
def transferIn.transferIX (escrowNft : NftWithToken)
    (escrowAccountAddress : PublicKey) (nft : NftOrSft) (keypair : Keypair) :
    Instruction :=
  Instruction.transferIntoEscrow
    (transferIn.accounts escrowNft escrowAccountAddress nft keypair)
    { transferIntoEscrowArgs := { amount := 1, index := 1 } }

/-- `transferIn` (toe.ts lines 32-76): compute the destination
associated token account, build the transfer instruction, wrap it in a
transaction, fetch a blockhash, set blockhash and fee payer, and submit
with `skipPreflight: true`. The console logging has no effect on the
result; a failed awaited call propagates its exception; each network
call is recorded in the returned trace. -/
def transferIn (connection : Network) (escrowNft : NftWithToken)
    (escrowAccountAddress : PublicKey) (nft : NftOrSft) (keypair : Keypair) :
    Except String Unit × List NetCall :=
  let transferIX := transferIn.transferIX escrowNft escrowAccountAddress nft keypair
  let tx := Transaction.empty.add transferIX
  match connection.blockhashResult with
  | .error e => (.error e, [NetCall.getLatestBlockhash])
  | .ok blockhash =>
    let tx := { tx with recentBlockhash := some blockhash,
                        feePayer := some keypair.publicKey }
    match connection.sendResult tx [keypair] ⟨true⟩ with
    | .error e =>
      (.error e,
        [NetCall.getLatestBlockhash,
         NetCall.sendTransaction tx [keypair] ⟨true⟩])
    | .ok _ =>
      (.ok (),
        [NetCall.getLatestBlockhash,
         NetCall.sendTransaction tx [keypair] ⟨true⟩])

/-- The options carried by the CLI `create` command: cluster env
(default devnet), optional RPC endpoint, keypair path (with a
placeholder default), optional log level, optional amount. -/
structure CmdOpts where
  env : String
  rpc : Option String
  keypair : String
  logLevel : Option String
  amount : Option String
deriving DecidableEq

/-- One observable step of a CLI command action. `useMetaplex` models
the call to `use_metaplex` from ./helpers/utils (absent from the
provided sources); per the spec it only "constructs a metaplex client
handle" and performs no on-chain action. The remaining constructors
are the steps the action could take but does not. -/
inductive CliAction where
  | useMetaplex (keypair : String) (env : String) (rpc : Option String)
  | invokeCreateTOE
  | invokeTransferIn
  | submitTransaction
deriving DecidableEq

/-- Modelled from the spec: whether a CLI step reaches the chain.
Constructing a metaplex client handle does not; invoking either escrow
helper or submitting a transaction does. -/
def CliAction.isOnChain : CliAction → Bool
  | .useMetaplex _ _ _ => false
  | .invokeCreateTOE => true
  | .invokeTransferIn => true
  | .submitTransaction => true

/-- Whether a CLI step is an invocation of one of the escrow helpers. -/
def CliAction.invokesEscrowHelper : CliAction → Bool
  | .invokeCreateTOE => true
  | .invokeTransferIn => true
  | .useMetaplex _ _ _ => false
  | .submitTransaction => false

/-- The body of the CLI `create` command action (cli file, the
`programCommand(...).action` handler of `create`): destructure keypair, env
and rpc from the options and construct a metaplex client handle;
nothing else happens. -/
def createAction (cmdOpts : CmdOpts) : List CliAction :=
  [CliAction.useMetaplex cmdOpts.keypair cmdOpts.env cmdOpts.rpc]

/-- Modelled from the spec: the argument struct of the
AddCollectionConstraintToEscrowConstraintModel instruction. Its byte
layout is produced by the external generated beet serializer
(../types/AddCollectionConstraintToEscrowConstraintModelArgs, absent
from the provided sources), so the struct is kept abstract as the byte
payload that serializer emits. -/
structure AddCollectionConstraintToEscrowConstraintModelArgs where
  bytes : List Nat
deriving DecidableEq

/-- The serialization of the abstract argument struct (the external
beet emits exactly its payload). -/
def AddCollectionConstraintToEscrowConstraintModelArgs.serialize
    (args : AddCollectionConstraintToEscrowConstraintModelArgs) : List Nat :=
  args.bytes

/-- The argument record accepted by the generated builder. -/
structure AddCollectionConstraintToEscrowConstraintModelInstructionArgs where
  addCollectionConstraintToEscrowConstraintModelArgs :
    AddCollectionConstraintToEscrowConstraintModelArgs
deriving DecidableEq

/-- The accounts record accepted by the generated builder; the system
program is optional and defaulted by the builder when omitted. -/
structure AddCollectionConstraintToEscrowConstraintModelInstructionAccounts where
  constraintModel : PublicKey
  payer : PublicKey
  updateAuthority : PublicKey
  collectionMint : PublicKey
  collectionMintMetadata : PublicKey
  systemProgram : Option PublicKey
  sysvarInstructions : PublicKey
deriving DecidableEq

/-- A raw `web3.TransactionInstruction`: program id, account metas and
serialized data bytes. -/
structure TransactionInstruction where
  programId : PublicKey
  keys : List AccountMeta
  data : List Nat
deriving DecidableEq

/-- The instruction discriminator constant from the generated file. -/
def addCollectionConstraintToEscrowConstraintModelInstructionDiscriminator :
    Nat := 5

/-- The serializer of `AddCollectionConstraintToEscrowConstraintModelStruct`:
a u8 discriminator followed by the serialized argument struct, in the
declared field order. -/
def AddCollectionConstraintToEscrowConstraintModelStruct.serialize
    (instructionDiscriminator : Nat)
    (args : AddCollectionConstraintToEscrowConstraintModelInstructionArgs) :
    List Nat :=
  instructionDiscriminator % 256 ::
    args.addCollectionConstraintToEscrowConstraintModelArgs.serialize

/-- The default program id of the generated builder
(`trifMWutwBxkSuatmpPVnEe7NoE3BJKgjVi8sSyoXWX`). -/
def trifleProgramId : PublicKey :=
  ⟨"trifMWutwBxkSuatmpPVnEe7NoE3BJKgjVi8sSyoXWX"⟩

/-- `createAddCollectionConstraintToEscrowConstraintModelInstruction`
(toe.ts lines 165-207 of the provided copy): serialize the
discriminator and the argument struct, then lay out the seven account
metas in the fixed order with their writable/signer flags, defaulting
the system program when the caller omits it. In the source the program
id is an optional parameter defaulting to `trifleProgramId`; here it is
passed explicitly. -/
def createAddCollectionConstraintToEscrowConstraintModelInstruction
    (accounts : AddCollectionConstraintToEscrowConstraintModelInstructionAccounts)
    (args : AddCollectionConstraintToEscrowConstraintModelInstructionArgs)
    (programId : PublicKey) : TransactionInstruction :=
  let data := AddCollectionConstraintToEscrowConstraintModelStruct.serialize
    addCollectionConstraintToEscrowConstraintModelInstructionDiscriminator args
  let keys : List AccountMeta :=
    [ ⟨accounts.constraintModel, true, false⟩,
      ⟨accounts.payer, true, true⟩,
      ⟨accounts.updateAuthority, false, true⟩,
      ⟨accounts.collectionMint, false, false⟩,
      ⟨accounts.collectionMintMetadata, false, false⟩,
      ⟨accounts.systemProgram.getD SystemProgram.programId, false, false⟩,
      ⟨accounts.sysvarInstructions, false, false⟩ ]
  { programId := programId, keys := keys, data := data }

/-- A concrete deposited NFT used to evaluate the helpers. -/
def sampleNft : NftWithToken :=
  ⟨⟨⟨"mintA"⟩⟩, ⟨"metaA"⟩, ⟨⟨"editionA"⟩⟩, ⟨⟨"tokenA"⟩⟩⟩

/-- A concrete escrow NFT used to evaluate the helpers. -/
def sampleEscrowNft : NftWithToken :=
  ⟨⟨⟨"mintB"⟩⟩, ⟨"metaB"⟩, ⟨⟨"editionB"⟩⟩, ⟨⟨"tokenB"⟩⟩⟩

/-- A concrete signing keypair used to evaluate the helpers. -/
def sampleKeypair : Keypair := ⟨⟨"payerC"⟩⟩

/-- A network oracle on which every call succeeds and every
transaction confirms. -/
def sampleNet : Network :=
  ⟨.ok "bh", fun _ _ _ => .ok "sig", fun _ => true⟩

/-- A network oracle identical to `sampleNet` except that no
transaction ever confirms. -/
def sampleNetNoConfirm : Network :=
  ⟨.ok "bh", fun _ _ _ => .ok "sig", fun _ => false⟩

/-- A network oracle on which every call throws. -/
def sampleFailNet : Network :=
  ⟨.error "rpc down", fun _ _ _ => .error "rpc down", fun _ => false⟩

theorem createTOE_ok_val (connection : Network) (nft : NftWithToken)
    (keypair : Keypair) (v : PublicKey × Nat)
    (hv : (createTOE connection nft keypair).1 = .ok v) :
    v = findToePda nft.mint.address := by
  simp only [createTOE] at hv
  split at hv
  · simp at hv
  · split at hv
    · simp at hv
    · simpa using hv.symm

/-- C1: the transfer instruction built by transferIn encodes the fixed
transfer arguments amount = 1 and index = 1, regardless of any
caller-supplied or CLI-supplied amount: the helper takes no amount
parameter at all, and for all of its inputs every transaction it
submits carries exactly the instruction whose argument record is the
literal amount 1, index 1. -/
theorem transferIn_encodes_fixed_args (connection : Network)
    (escrowNft : NftWithToken) (escrowAccountAddress : PublicKey)
    (nft : NftOrSft) (keypair : Keypair)
    (tx : Transaction) (signers : List Keypair) (options : SendOptions)
    (hmem : NetCall.sendTransaction tx signers options ∈
      (transferIn connection escrowNft escrowAccountAddress nft keypair).2) :
    tx.instructions =
      [Instruction.transferIntoEscrow
        (transferIn.accounts escrowNft escrowAccountAddress nft keypair)
        { transferIntoEscrowArgs := { amount := 1, index := 1 } }] := by
  simp only [transferIn] at hmem
  split at hmem
  · simp at hmem
  · split at hmem <;>
    · simp at hmem
      obtain ⟨htx, -, -⟩ := hmem
      subst htx
      simp [Transaction.empty, Transaction.add, transferIn.transferIX]

/-- Witness for C1 at concrete inputs. -/
theorem transferIn_encodes_fixed_args_witness :
    Transaction.instructions
      ⟨[transferIn.transferIX sampleEscrowNft ⟨"escrowD"⟩ (.nft sampleNft) sampleKeypair],
        some "bh", some ⟨"payerC"⟩⟩ =
      [Instruction.transferIntoEscrow
        (transferIn.accounts sampleEscrowNft ⟨"escrowD"⟩ (.nft sampleNft) sampleKeypair)
        { transferIntoEscrowArgs := { amount := 1, index := 1 } }] :=
  transferIn_encodes_fixed_args sampleNet sampleEscrowNft ⟨"escrowD"⟩
    (.nft sampleNft) sampleKeypair
    ⟨[transferIn.transferIX sampleEscrowNft ⟨"escrowD"⟩ (.nft sampleNft) sampleKeypair],
      some "bh", some ⟨"payerC"⟩⟩
    [sampleKeypair] ⟨true⟩ (by decide)

/-- C2: createTOE returns the escrow address pair computed by
findToePda from the NFT mint public key, and its behaviour depends
only on the blockhash and send outcomes, not on whether the submitted
creation transaction ultimately confirms on chain. -/
theorem createTOE_returns_derived_pda (connection connection' : Network)
    (nft : NftWithToken) (keypair : Keypair) (v : PublicKey × Nat)
    (hbh : connection.blockhashResult = connection'.blockhashResult)
    (hsend : connection.sendResult = connection'.sendResult)
    (hv : (createTOE connection nft keypair).1 = .ok v) :
    createTOE connection nft keypair = createTOE connection' nft keypair
    ∧ v = findToePda nft.mint.address :=
  ⟨by simp only [createTOE, hbh, hsend], createTOE_ok_val connection nft keypair v hv⟩

/-- Witness for C2: two oracles differing only in confirmation. -/
theorem createTOE_returns_derived_pda_witness :
    createTOE sampleNet sampleNft sampleKeypair =
      createTOE sampleNetNoConfirm sampleNft sampleKeypair
    ∧ findToePda sampleNft.mint.address = findToePda sampleNft.mint.address :=
  createTOE_returns_derived_pda sampleNet sampleNetNoConfirm sampleNft sampleKeypair
    (findToePda sampleNft.mint.address) rfl rfl (by rfl)

/-- C3: the escrow address derived in createTOE is a deterministic
function of the mint public key: two invocations, over any networks
and keypairs, that agree on the mint agree both on the escrow account
passed to the creation instruction and on any returned address pair. -/
theorem createTOE_escrow_address_deterministic
    (connection₁ connection₂ : Network) (nft₁ nft₂ : NftWithToken)
    (keypair₁ keypair₂ : Keypair) (v₁ v₂ : PublicKey × Nat)
    (hmint : nft₁.mint.address = nft₂.mint.address)
    (hv₁ : (createTOE connection₁ nft₁ keypair₁).1 = .ok v₁)
    (hv₂ : (createTOE connection₂ nft₂ keypair₂).1 = .ok v₂) :
    (createTOE.accounts nft₁ keypair₁).escrow = (createTOE.accounts nft₂ keypair₂).escrow
    ∧ v₁ = v₂ := by
  refine ⟨by simp [createTOE.accounts, hmint], ?_⟩
  rw [createTOE_ok_val connection₁ nft₁ keypair₁ v₁ hv₁,
    createTOE_ok_val connection₂ nft₂ keypair₂ v₂ hv₂, hmint]

/-- Witness for C3: two calls over different networks and keypairs
with the same mint. -/
theorem createTOE_escrow_address_deterministic_witness :
    (createTOE.accounts sampleNft sampleKeypair).escrow =
      (createTOE.accounts ⟨⟨⟨"mintA"⟩⟩, ⟨"otherMeta"⟩, ⟨⟨"otherEdition"⟩⟩, ⟨⟨"otherToken"⟩⟩⟩ ⟨⟨"payerD"⟩⟩).escrow
    ∧ findToePda sampleNft.mint.address = findToePda sampleNft.mint.address :=
  createTOE_escrow_address_deterministic sampleNet sampleNetNoConfirm sampleNft
    ⟨⟨⟨"mintA"⟩⟩, ⟨"otherMeta"⟩, ⟨⟨"otherEdition"⟩⟩, ⟨⟨"otherToken"⟩⟩⟩
    sampleKeypair ⟨⟨"payerD"⟩⟩
    (findToePda sampleNft.mint.address) (findToePda sampleNft.mint.address)
    rfl (by rfl) (by rfl)

/-- C4: for every invocation of transferIn, the destination account of
the transfer instruction is the associated-token-account address
derived from the deposited mint and the escrow account address. -/
theorem transferIn_attributeDst_is_ata (escrowNft : NftWithToken)
    (escrowAccountAddress : PublicKey) (nft : NftOrSft) (keypair : Keypair) :
    (transferIn.accounts escrowNft escrowAccountAddress nft keypair).attributeDst =
      getAssociatedTokenAddress nft.mint.address escrowAccountAddress true :=
  rfl

/-- C5: the creation instruction built by createTOE carries exactly
the escrow, metadata, mint, edition, payer and system-program
accounts: escrow and metadata writable, payer writable and the sole
signer, the rest read-only, and no trailing constraint-model entry. -/
theorem createTOE_creation_instruction_account_list (nft : NftWithToken)
    (keypair : Keypair) :
    createTOE.createIX nft keypair =
      Instruction.createEscrowAccount (createTOE.accounts nft keypair)
    ∧ createEscrowAccountInstructionKeys (createTOE.accounts nft keypair) =
      [ ⟨(findToePda nft.mint.address).1, true, false⟩,
        ⟨nft.metadataAddress, true, false⟩,
        ⟨nft.mint.address, false, false⟩,
        ⟨nft.edition.address, false, false⟩,
        ⟨keypair.publicKey, true, true⟩,
        ⟨SystemProgram.programId, false, false⟩ ] :=
  ⟨rfl, rfl⟩

/-- C6: every transaction submission made by transferIn carries
skipPreflight = true, and the constraint-model account in the transfer
instruction is the single hard-coded public key, independent of all
inputs. -/
theorem transferIn_skips_preflight_fixed_constraint_model
    (connection : Network) (escrowNft : NftWithToken)
    (escrowAccountAddress : PublicKey) (nft : NftOrSft) (keypair : Keypair)
    (tx : Transaction) (signers : List Keypair) (options : SendOptions)
    (hmem : NetCall.sendTransaction tx signers options ∈
      (transferIn connection escrowNft escrowAccountAddress nft keypair).2) :
    options.skipPreflight = true
    ∧ (transferIn.accounts escrowNft escrowAccountAddress nft keypair).constraintModel =
      ⟨"CjWwgEJUBdb2iYjZsDng5qkYRC8f3rQeqr4k1j9jExr5"⟩ := by
  refine ⟨?_, rfl⟩
  simp only [transferIn] at hmem
  split at hmem
  · simp at hmem
  · split at hmem <;>
    · simp at hmem
      obtain ⟨-, -, hopt⟩ := hmem
      subst hopt
      rfl

/-- Witness for C6 at concrete inputs. -/
theorem transferIn_skips_preflight_fixed_constraint_model_witness :
    (SendOptions.mk true).skipPreflight = true
    ∧ (transferIn.accounts sampleEscrowNft ⟨"escrowD"⟩ (.nft sampleNft) sampleKeypair).constraintModel =
      ⟨"CjWwgEJUBdb2iYjZsDng5qkYRC8f3rQeqr4k1j9jExr5"⟩ :=
  transferIn_skips_preflight_fixed_constraint_model sampleNet sampleEscrowNft
    ⟨"escrowD"⟩ (.nft sampleNft) sampleKeypair
    ⟨[transferIn.transferIX sampleEscrowNft ⟨"escrowD"⟩ (.nft sampleNft) sampleKeypair],
      some "bh", some ⟨"payerC"⟩⟩
    [sampleKeypair] ⟨true⟩ (by decide)

/-- C7: for every combination of options, the CLI create command
action only constructs a metaplex client handle: it never invokes
createTOE or transferIn and performs no on-chain action. -/
theorem cli_create_action_constructs_client_only (cmdOpts : CmdOpts) :
    createAction cmdOpts =
      [CliAction.useMetaplex cmdOpts.keypair cmdOpts.env cmdOpts.rpc]
    ∧ (createAction cmdOpts).all
        (fun a => !a.invokesEscrowHelper && !a.isOnChain) = true :=
  ⟨rfl, rfl⟩

/-- C8: the helpers perform no retries and no error translation: a
failing blockhash fetch or submission propagates its exception
unmodified as the result of createTOE and of transferIn, and when both
network calls succeed neither helper raises an exception. -/
theorem escrow_helpers_propagate_errors (connection : Network)
    (nft escrowNft : NftWithToken) (escrowAccountAddress : PublicKey)
    (depositNft : NftOrSft) (keypair : Keypair) :
    (∀ e, connection.blockhashResult = .error e →
      (createTOE connection nft keypair).1 = .error e
      ∧ (transferIn connection escrowNft escrowAccountAddress depositNft keypair).1 = .error e)
    ∧ (∀ e, (∀ tx signers options, connection.sendResult tx signers options = .error e) →
        ∀ blockhash, connection.blockhashResult = .ok blockhash →
          (createTOE connection nft keypair).1 = .error e
          ∧ (transferIn connection escrowNft escrowAccountAddress depositNft keypair).1 = .error e)
    ∧ ((∀ tx signers options, ∃ sig, connection.sendResult tx signers options = .ok sig) →
        ∀ blockhash, connection.blockhashResult = .ok blockhash →
          (createTOE connection nft keypair).1 = .ok (findToePda nft.mint.address)
          ∧ (transferIn connection escrowNft escrowAccountAddress depositNft keypair).1 = .ok ()) := by
  refine ⟨fun e he => ⟨by simp [createTOE, he], by simp [transferIn, he]⟩,
    fun e hsend blockhash hbh => ⟨by simp [createTOE, hbh, hsend], by simp [transferIn, hbh, hsend]⟩,
    fun hsend blockhash hbh => ⟨?_, ?_⟩⟩
  · obtain ⟨sig, hs⟩ := hsend
      ⟨[createTOE.createIX nft keypair], some blockhash, some keypair.publicKey⟩
      [keypair] SendOptions.default
    simp [createTOE, hbh, Transaction.empty, Transaction.add] at hs ⊢
    simp [hs]
  · obtain ⟨sig, hs⟩ := hsend
      ⟨[transferIn.transferIX escrowNft escrowAccountAddress depositNft keypair],
        some blockhash, some keypair.publicKey⟩
      [keypair] ⟨true⟩
    simp [transferIn, hbh, Transaction.empty, Transaction.add] at hs ⊢
    simp [hs]

/-- Witness for C8: a network on which every call throws, and one on
which every call succeeds. -/
theorem escrow_helpers_propagate_errors_witness :
    (createTOE sampleFailNet sampleNft sampleKeypair).1 = .error "rpc down"
    ∧ (transferIn sampleFailNet sampleEscrowNft ⟨"escrowD"⟩ (.nft sampleNft) sampleKeypair).1 =
        .error "rpc down"
    ∧ (createTOE sampleNet sampleNft sampleKeypair).1 = .ok (findToePda sampleNft.mint.address)
    ∧ (transferIn sampleNet sampleEscrowNft ⟨"escrowD"⟩ (.nft sampleNft) sampleKeypair).1 = .ok () :=
  ⟨((escrow_helpers_propagate_errors sampleFailNet sampleNft sampleEscrowNft
      ⟨"escrowD"⟩ (.nft sampleNft) sampleKeypair).1 "rpc down" rfl).1,
   ((escrow_helpers_propagate_errors sampleFailNet sampleNft sampleEscrowNft
      ⟨"escrowD"⟩ (.nft sampleNft) sampleKeypair).1 "rpc down" rfl).2,
   ((escrow_helpers_propagate_errors sampleNet sampleNft sampleEscrowNft
      ⟨"escrowD"⟩ (.nft sampleNft) sampleKeypair).2.2
      (fun _ _ _ => ⟨"sig", rfl⟩) "bh" rfl).1,
   ((escrow_helpers_propagate_errors sampleNet sampleNft sampleEscrowNft
      ⟨"escrowD"⟩ (.nft sampleNft) sampleKeypair).2.2
      (fun _ _ _ => ⟨"sig", rfl⟩) "bh" rfl).2⟩

/-- C9: the generated AddCollectionConstraintToEscrowConstraintModel
builder emits data beginning with discriminator byte 5 and exactly the
seven account metas in the fixed order with their writable/signer
flags, the system program entry defaulting to the System Program id
when the caller omits it. -/
theorem addCollectionConstraint_instruction_layout
    (accounts : AddCollectionConstraintToEscrowConstraintModelInstructionAccounts)
    (args : AddCollectionConstraintToEscrowConstraintModelInstructionArgs)
    (programId : PublicKey) :
    (createAddCollectionConstraintToEscrowConstraintModelInstruction
      accounts args programId).data.head? = some 5
    ∧ (createAddCollectionConstraintToEscrowConstraintModelInstruction
        accounts args programId).keys =
      [ ⟨accounts.constraintModel, true, false⟩,
        ⟨accounts.payer, true, true⟩,
        ⟨accounts.updateAuthority, false, true⟩,
        ⟨accounts.collectionMint, false, false⟩,
        ⟨accounts.collectionMintMetadata, false, false⟩,
        ⟨accounts.systemProgram.getD SystemProgram.programId, false, false⟩,
        ⟨accounts.sysvarInstructions, false, false⟩ ]
    ∧ (accounts.systemProgram = none →
        (createAddCollectionConstraintToEscrowConstraintModelInstruction
          accounts args programId).keys =
        [ ⟨accounts.constraintModel, true, false⟩,
          ⟨accounts.payer, true, true⟩,
          ⟨accounts.updateAuthority, false, true⟩,
          ⟨accounts.collectionMint, false, false⟩,
          ⟨accounts.collectionMintMetadata, false, false⟩,
          ⟨SystemProgram.programId, false, false⟩,
          ⟨accounts.sysvarInstructions, false, false⟩ ]) :=
  ⟨rfl, rfl, fun h => by
    simp [createAddCollectionConstraintToEscrowConstraintModelInstruction, h]⟩

/-- Witness for C9: a caller omitting the system program. -/
theorem addCollectionConstraint_instruction_layout_witness :
    (createAddCollectionConstraintToEscrowConstraintModelInstruction
      ⟨⟨"cm"⟩, ⟨"payerC"⟩, ⟨"ua"⟩, ⟨"colMint"⟩, ⟨"colMeta"⟩, none, ⟨"sysvarIx"⟩⟩
      ⟨⟨[7, 8]⟩⟩ trifleProgramId).data.head? = some 5
    ∧ (createAddCollectionConstraintToEscrowConstraintModelInstruction
        ⟨⟨"cm"⟩, ⟨"payerC"⟩, ⟨"ua"⟩, ⟨"colMint"⟩, ⟨"colMeta"⟩, none, ⟨"sysvarIx"⟩⟩
        ⟨⟨[7, 8]⟩⟩ trifleProgramId).keys =
      [ ⟨⟨"cm"⟩, true, false⟩,
        ⟨⟨"payerC"⟩, true, true⟩,
        ⟨⟨"ua"⟩, false, true⟩,
        ⟨⟨"colMint"⟩, false, false⟩,
        ⟨⟨"colMeta"⟩, false, false⟩,
        ⟨SystemProgram.programId, false, false⟩,
        ⟨⟨"sysvarIx"⟩, false, false⟩ ] :=
  ⟨(addCollectionConstraint_instruction_layout
      ⟨⟨"cm"⟩, ⟨"payerC"⟩, ⟨"ua"⟩, ⟨"colMint"⟩, ⟨"colMeta"⟩, none, ⟨"sysvarIx"⟩⟩
      ⟨⟨[7, 8]⟩⟩ trifleProgramId).1,
   (addCollectionConstraint_instruction_layout
      ⟨⟨"cm"⟩, ⟨"payerC"⟩, ⟨"ua"⟩, ⟨"colMint"⟩, ⟨"colMeta"⟩, none, ⟨"sysvarIx"⟩⟩
      ⟨⟨[7, 8]⟩⟩ trifleProgramId).2.2 rfl⟩

/-- C10: createTOE always builds the escrow-creation instruction with
no escrow constraint model: the field passed to the builder is
undefined. -/
theorem createTOE_no_constraint_model (nft : NftWithToken) (keypair : Keypair) :
    (createTOE.accounts nft keypair).escrowConstraintModel = none
    ∧ createTOE.createIX nft keypair =
      Instruction.createEscrowAccount (createTOE.accounts nft keypair) :=
  ⟨rfl, rfl⟩
